import Mathlib

/-!
Verification development for the docling_ui conversion front end
(src/docling_ui.py).  The Python module is shallowly embedded here:

* Python strings and filesystem paths are modelled as lists of characters
  (abbreviation Str below); string literals enter through String.data.
* The filesystem is modelled as a record FS carrying exactly the queries and
  effects the source performs: whether the default output directory exists,
  whether creating it raises an OSError, the is_dir query on candidate output
  paths, and the glob query listing files of a directory matching one
  extension.  Path.mkdir with exist_ok only flips the existence flag; the
  created directory's own path is never an argument of is_dir in the source
  (is_dir is applied only to paths strictly inside it), so isDir and
  globFiles are unchanged by it.
* subprocess.run is an input of the embedding: either an exception message
  (launch failure) or a ProcResult with returncode, captured stdout and
  captured stderr.  The external tool's effect on the filesystem is an
  explicit function FS to FS applied when, and only when, the process runs.
* Python exceptions are Except values; an uncaught exception in the batch
  loop is an error value carrying the world state at the raise point.
-/

/-- Python strings / paths, modelled as lists of characters. -/
abbrev Str := List Char

/-- Filesystem state, restricted to the queries and effects the source
performs. -/
structure FS where
  /-- Does the default output directory (script dir / tmp) exist? -/
  tmpDirExists : Bool
  /-- Would Path.mkdir raise (permissions, read-only fs) when the directory
  has to be created? -/
  mkdirRaises : Bool
  /-- Path.is_dir on candidate output paths. -/
  isDir : Str → Bool
  /-- Path.glob: files in the given directory matching the given format's
  extension, in listing order. -/
  globFiles : Str → Str → List Str
  /-- Path(__file__).parent of the script. -/
  scriptDir : Str

/-- Result of a terminated subprocess.run call (text=True). -/
structure ProcResult where
  returncode : Int
  stdout : Str
  stderr : Str

/-- Message of the OSError raised by Path.mkdir when the output directory
cannot be created. -/
def mkdir_error_msg : Str := ("OSError: cannot create directory".data)

/-- The default output directory path: script directory joined with tmp
(docling_ui.py line 13). -/
def default_tmp_path (fs : FS) : Str := fs.scriptDir ++ '/' :: ("tmp".data)

/-- get_default_output_dir (docling_ui.py lines 8-15): returns the tmp
directory under the script's directory, creating it if absent
(mkdir with exist_ok=True).  Creation can raise OSError. -/
def get_default_output_dir (fs : FS) : Except Str (Str × FS) :=
  if fs.tmpDirExists then Except.ok (default_tmp_path fs, fs)
  else if fs.mkdirRaises then Except.error mkdir_error_msg
  else Except.ok (default_tmp_path fs, { fs with tmpDirExists := true })

/-- Everything after the first occurrence of the character c; empty when c
does not occur.  Models s.split(c, 1)[1] (only used when c occurs). -/
def split_first_rest (c : Char) : Str → Str
  | [] => []
  | x :: xs => if x = c then xs else split_first_rest c xs

/-- Original-name recovery (docling_ui.py line 23): when the staged name
contains an underscore, everything after the first underscore, i.e.
name.split(underscore, 1)[1]; otherwise the name unchanged. -/
def recover_original_name (name : Str) : Str :=
  if '_' ∈ name then split_first_rest '_' name else name

/-- Path(p).name: the final path component, everything after the last
slash. -/
def path_name (p : Str) : Str := (p.reverse.takeWhile (fun c => c ≠ '/')).reverse

/-- Index of the last occurrence of c, if any. -/
def lastIdxOf (c : Char) : Str → Option Nat
  | [] => none
  | x :: xs =>
    match lastIdxOf c xs with
    | some i => some (i + 1)
    | none => if x = c then some 0 else none

/-- Path(name).stem (docling_ui.py line 24), following CPython: with i the
index of the last dot, the stem is name[:i] when 0 < i < len(name)-1,
otherwise the whole name. -/
def py_stem (name : Str) : Str :=
  match lastIdxOf '.' name with
  | none => name
  | some i => if 0 < i ∧ i < name.length - 1 then name.take i else name

/-- Expected output path for one format (docling_ui.py line 32):
output_dir / (stem . fmt). -/
def expected_output_path (output_dir original_stem fmt : Str) : Str :=
  output_dir ++ '/' :: (original_stem ++ '.' :: fmt)

/-- Expected output paths, one per requested format, in request order. -/
def expected_output_paths (output_dir original_stem : Str) (fmts : List Str) : List Str :=
  fmts.map (expected_output_path output_dir original_stem)

/-- The output_files list built by the loop of docling_ui.py lines 31-42,
read from the filesystem state at loop time (before subprocess.run): for each
format, the expected path; but when that path is an existing directory, the
files inside it matching the format's extension (nothing when the glob is
empty, per the `if files:` guard on line 39). -/
def reconciled_output_files (fs : FS) (output_dir original_stem : Str)
    (fmts : List Str) : List Str :=
  fmts.flatMap (fun fmt =>
    let output_path := expected_output_path output_dir original_stem fmt
    if fs.isDir output_path then
      let files := fs.globFiles output_path fmt
      if files.isEmpty then [] else files
    else [output_path])

/-- The command list built by docling_ui.py lines 20, 33-34 and 45-46:
docling, the input path, one pair of to/output flags per requested format in
request order, and the no-ocr flag exactly when OCR is off.  The Python loop
accumulates cmd and output_files together; the two accumulators are
independent, so they are embedded as separate list computations. -/
def build_cmd (input_path output_dir original_stem : Str) (fmts : List Str)
    (use_ocr : Bool) : List Str :=
  [("docling".data), input_path]
    ++ fmts.flatMap (fun fmt =>
        [("--to".data), fmt, ("--output".data),
         expected_output_path output_dir original_stem fmt])
    ++ (if use_ocr then [] else [("--no-ocr".data)])

/-- Return value of run_docling_command, together with the filesystem state
after the call and the command that was built. -/
structure RunResult where
  fs : FS
  success : Bool
  message : Str
  output_files : List Str
  cmd : List Str

/-- run_docling_command (docling_ui.py lines 17-55).  Parameters beyond the
Python ones model the environment: eff is the external tool's effect on the
filesystem (applied exactly when the process runs), proc is the outcome of
subprocess.run (an exception message, caught on line 54, or a terminated
process result).  An OSError from get_default_output_dir is raised outside
the try block and propagates (error value). -/
def run_docling_command (fs : FS) (eff : FS → FS) (proc : Except Str ProcResult)
    (input_path : Str) (output_formats : List Str) (use_ocr : Bool) :
    Except Str RunResult :=
  let name := path_name input_path
  let original_filename := recover_original_name name
  let original_stem := py_stem original_filename
  match get_default_output_dir fs with
  | Except.error e => Except.error e
  | Except.ok (output_dir, fs1) =>
    let output_files := reconciled_output_files fs1 output_dir original_stem output_formats
    let cmd := build_cmd input_path output_dir original_stem output_formats use_ocr
    match proc with
    | Except.error e => Except.ok ⟨fs1, false, e, [], cmd⟩
    | Except.ok result =>
      let fs2 := eff fs1
      if result.returncode = 0 then Except.ok ⟨fs2, true, result.stdout, output_files, cmd⟩
      else Except.ok ⟨fs2, false, result.stderr, [], cmd⟩

/-- Produced-file list of a run; empty when the call raised. -/
def runFiles (x : Except Str RunResult) : List Str :=
  match x with
  | Except.ok r => r.output_files
  | Except.error _ => []

/-- Message of a run; empty when the call raised. -/
def runMessage (x : Except Str RunResult) : Str :=
  match x with
  | Except.ok r => r.message
  | Except.error _ => []

/-- Success flag of a run; false when the call raised. -/
def runSuccess (x : Except Str RunResult) : Bool :=
  match x with
  | Except.ok r => r.success
  | Except.error _ => false

/-- Command built by a run; empty when the call raised before building it. -/
def runCmd (x : Except Str RunResult) : List Str :=
  match x with
  | Except.ok r => r.cmd
  | Except.error _ => []

/-- Filesystem state after a run; a blank filesystem when the call raised. -/
def runFS (x : Except Str RunResult) : FS :=
  match x with
  | Except.ok r => r.fs
  | Except.error _ => ⟨false, false, fun _ => false, fun _ _ => [], []⟩

/-- One uploaded file of a batch, together with the environment behavior of
its conversion: the outcome of subprocess.run for it and the external tool's
effect on the filesystem.  The uploaded bytes do not influence any control
flow of the source, so they are not modelled. -/
structure UploadedFile where
  name : Str
  proc : Except Str ProcResult
  eff : FS → FS

/-- World state of the batch loop in main: the filesystem, the set of
existing temporary staging files, the progress values reported to the
progress bar in order, and the per-file outcomes reported to the user
(success flag, message, produced files). -/
structure World where
  fs : FS
  tempFiles : List Str
  progressReports : List ℚ
  results : List (Bool × Str × List Str)

/-- Name of the temporary staging file of the i-th uploaded file
(docling_ui.py line 101): tempfile.NamedTemporaryFile with
suffix underscore-plus-original-name.  The random component of the
generated name is modelled by a run of i characters, unique per index. -/
def temp_name (i : Nat) (name : Str) : Str :=
  ("/tmp/tmp".data) ++ List.replicate i 'x' ++ '_' :: name

/-- One iteration of the batch loop (docling_ui.py lines 95-125) for the
i-th of n files: create the staging file, run the conversion, delete the
staging file (os.unlink, line 113), report progress (i+1)/n (lines 96 and
116) and the outcome (lines 119-125).  An exception escaping
run_docling_command propagates (error value carrying the world at the raise
point): the unlink, the progress update and the outcome report are
skipped. -/
def processFile (fmts : List Str) (ocr : Bool) (n i : Nat) (f : UploadedFile)
    (w : World) : Except (Str × World) World :=
  let tmp_path := temp_name i f.name
  let w1 : World := { w with tempFiles := w.tempFiles ++ [tmp_path] }
  match run_docling_command w1.fs f.eff f.proc tmp_path fmts ocr with
  | Except.error e => Except.error (e, w1)
  | Except.ok r =>
    Except.ok { fs := r.fs,
                tempFiles := w1.tempFiles.erase tmp_path,
                progressReports := w1.progressReports ++ [((i + 1 : Nat) : ℚ) / (n : ℚ)],
                results := w1.results ++ [(r.success, r.message, r.output_files)] }

/-- The batch loop: files processed strictly in upload order, i the index of
the first file of the remaining list, n the batch size. -/
def processBatch (fmts : List Str) (ocr : Bool) (n : Nat) :
    Nat → List UploadedFile → World → Except (Str × World) World
  | _, [], w => Except.ok w
  | i, f :: rest, w =>
    match processFile fmts ocr n i f w with
    | Except.error ew => Except.error ew
    | Except.ok w1 => processBatch fmts ocr n (i + 1) rest w1

/-- The button handler of main (docling_ui.py lines 78-129): empty upload
list or empty format selection shows an error and returns before the loop;
otherwise the batch loop runs and, after the last file, the progress bar is
set to exactly 1.0 (line 129).  An exception escaping the loop also skips
that final update. -/
def main_run (fmts : List Str) (ocr : Bool) (files : List UploadedFile)
    (w0 : World) : Except (Str × World) World :=
  if files.isEmpty then Except.ok w0
  else if fmts.isEmpty then Except.ok w0
  else
    match processBatch fmts ocr files.length 0 files w0 with
    | Except.error ew => Except.error ew
    | Except.ok w => Except.ok { w with progressReports := w.progressReports ++ [1] }

/-- Progress reports of a batch outcome, raised or not. -/
def reportsOf (x : Except (Str × World) World) : List ℚ :=
  match x with
  | Except.ok w => w.progressReports
  | Except.error (_, w) => w.progressReports

/-- Temporary staging files existing in a batch outcome, raised or not. -/
def tempsOf (x : Except (Str × World) World) : List Str :=
  match x with
  | Except.ok w => w.tempFiles
  | Except.error (_, w) => w.tempFiles

/-- Per-file outcome reports of a batch outcome, raised or not. -/
def resultsOf (x : Except (Str × World) World) : List (Bool × Str × List Str) :=
  match x with
  | Except.ok w => w.results
  | Except.error (_, w) => w.results

/-- Did the batch complete without an escaping exception? -/
def batchOk (x : Except (Str × World) World) : Bool :=
  match x with
  | Except.ok _ => true
  | Except.error _ => false

/-! Concrete fixtures used by witnesses and counterexamples. -/

/-- A filesystem whose default output directory exists and in which no
candidate output path is a directory. -/
def fsPlain : FS := ⟨true, false, fun _ => false, fun _ _ => [], []⟩

/-- A terminated process with exit status 0. -/
def procOK : ProcResult := ⟨0, ("done".data), []⟩

/-- A staged input path, as produced by the staging step for doc.pdf. -/
def input0 : Str := ("/stage/tmp0_doc.pdf".data)

/-- A filesystem whose default output directory is missing and can be
created. -/
def fsNoTmp : FS := ⟨false, false, fun _ => false, fun _ _ => [], []⟩

/-- A filesystem whose default output directory is missing and cannot be
created (permissions / read-only filesystem). -/
def fsRaise : FS := ⟨false, true, fun _ => false, fun _ _ => [], []⟩

/-- A filesystem in which the expected md output path of doc.pdf is a
directory holding two matching files. -/
def fsDir : FS :=
  ⟨true, false,
   fun q => decide (q = ("/tmp/doc.md".data)),
   fun q fmt =>
     if q = ("/tmp/doc.md".data) ∧ fmt = ("md".data) then
       [("/tmp/doc.md/a.md".data), ("/tmp/doc.md/b.md".data)]
     else [],
   []⟩

/-- External-tool effect that creates the expected md output path of doc.pdf
as a directory holding two matching files. -/
def effDir : FS → FS := fun fs =>
  { fs with
    isDir := fun q => decide (q = ("/tmp/doc.md".data)),
    globFiles := fun q fmt =>
      if q = ("/tmp/doc.md".data) ∧ fmt = ("md".data) then
        [("/tmp/doc.md/a.md".data), ("/tmp/doc.md/b.md".data)]
      else [] }

/-- A terminated process with exit status 1 and diagnostic stderr. -/
def procFail : ProcResult := ⟨1, ("ignored stdout".data), ("unsupported layout".data)⟩

/-- A terminated process with exit status 0 and empty stdout. -/
def procEmptyOut : ProcResult := ⟨0, [], ("warnings".data)⟩

/-- An uploaded file named doc.pdf whose conversion process exits 0. -/
def fileX : UploadedFile := ⟨("doc.pdf".data), Except.ok procOK, id⟩

/-- An uploaded file named doc.pdf whose conversion process exits 1. -/
def fileFail : UploadedFile := ⟨("doc.pdf".data), Except.ok procFail, id⟩

/-- Initial world over fsPlain with no staging files, no reports. -/
def w0ok : World := ⟨fsPlain, [], [], []⟩

/-- Initial world over fsRaise with no staging files, no reports. -/
def w0raise : World := ⟨fsRaise, [], [], []⟩

/-- Existence flag of the default output directory after its resolution. -/
def resolvedTmpExists (x : Except Str (Str × FS)) : Bool :=
  match x with
  | Except.ok (_, fs) => fs.tmpDirExists
  | Except.error _ => false

/-- Splitting at the first occurrence of c: on a list with no c before an
explicit c, everything after that c is returned. -/
theorem split_first_rest_append (c : Char) (pre post : Str) (h : c ∉ pre) :
    split_first_rest c (pre ++ c :: post) = post := by
  induction pre with
  | nil => simp [split_first_rest]
  | cons x xs ih =>
    have hx : ¬ x = c := by
      intro hxc
      subst hxc
      exact h (List.mem_cons_self x xs)
    have hxs : c ∉ xs := fun hm => h (List.mem_cons_of_mem x hm)
    simp [split_first_rest, hx, ih hxs]

/-- C2: for every filename containing at least one underscore (written as
pre, underscore, post with no underscore in pre), the original-name recovery
step returns exactly the substring after the first underscore; for every
filename with no underscore it returns the filename unchanged. -/
theorem original_name_recovery_first_underscore (pre post s : Str)
    (h1 : '_' ∉ pre) (h2 : '_' ∉ s) :
    recover_original_name (pre ++ '_' :: post) = post ∧
    recover_original_name s = s := by
  constructor
  · have hmem : '_' ∈ pre ++ '_' :: post :=
      List.mem_append_right _ (List.mem_cons_self _ _)
    simp only [recover_original_name, if_pos hmem]
    exact split_first_rest_append '_' pre post h1
  · simp [recover_original_name, h2]

/-- Witness for C2 at a concrete staged name and a concrete plain name. -/
theorem original_name_recovery_first_underscore_witness :
    '_' ∉ ("tmpabc123".data) ∧ '_' ∉ ("report.pdf".data) ∧
    (recover_original_name (("tmpabc123".data) ++ '_' :: ("doc 1.pdf".data)) =
        ("doc 1.pdf".data) ∧
      recover_original_name ("report.pdf".data) = ("report.pdf".data)) :=
  ⟨by decide, by decide,
    original_name_recovery_first_underscore _ _ _ (by decide) (by decide)⟩

/-- C6: for a non-empty requested-format sequence and a fixed stem, the
resolver produces exactly as many expected paths as requested formats, each
of the form directory, slash, stem, dot, format; and equal formats at two
positions resolve to the identical path. -/
theorem resolver_path_count_and_idempotence (d s : Str) (fmts : List Str)
    (h : fmts ≠ []) :
    (expected_output_paths d s fmts).length = fmts.length ∧
    (∀ p ∈ expected_output_paths d s fmts, ∃ fmt ∈ fmts,
        p = d ++ '/' :: (s ++ '.' :: fmt)) ∧
    (∀ i j : Nat, fmts[i]? = fmts[j]? →
        (expected_output_paths d s fmts)[i]? = (expected_output_paths d s fmts)[j]?) := by
  refine ⟨by simp [expected_output_paths], ?_, ?_⟩
  · intro p hp
    simp only [expected_output_paths, List.mem_map] at hp
    obtain ⟨fmt, hf, rfl⟩ := hp
    exact ⟨fmt, hf, rfl⟩
  · intro i j hij
    simp [expected_output_paths, List.getElem?_map, hij]

/-- Witness for C6: three requested formats with a duplicate. -/
theorem resolver_path_count_and_idempotence_witness :
    ([("md".data), ("json".data), ("md".data)] : List Str) ≠ [] ∧
    ((expected_output_paths ("/out".data) ("doc".data)
          [("md".data), ("json".data), ("md".data)]).length =
        ([("md".data), ("json".data), ("md".data)] : List Str).length ∧
      (∀ p ∈ expected_output_paths ("/out".data) ("doc".data)
          [("md".data), ("json".data), ("md".data)],
        ∃ fmt ∈ ([("md".data), ("json".data), ("md".data)] : List Str),
          p = ("/out".data) ++ '/' :: (("doc".data) ++ '.' :: fmt)) ∧
      (∀ i j : Nat,
        ([("md".data), ("json".data), ("md".data)] : List Str)[i]? =
          ([("md".data), ("json".data), ("md".data)] : List Str)[j]? →
        (expected_output_paths ("/out".data) ("doc".data)
            [("md".data), ("json".data), ("md".data)])[i]? =
          (expected_output_paths ("/out".data) ("doc".data)
            [("md".data), ("json".data), ("md".data)])[j]?)) :=
  ⟨by decide,
    resolver_path_count_and_idempotence ("/out".data) ("doc".data) _ (by decide)⟩

/-- C4: whenever the output directory already exists (so its resolution does
not raise), the constructed external command is exactly the tool name, the
input path, one to/output pair per requested format in request order, and
the no-ocr flag appended if and only if OCR is off. -/
theorem command_construction_exact (fs : FS) (eff : FS → FS)
    (proc : Except Str ProcResult) (input : Str) (fmts : List Str) (ocr : Bool)
    (hfs : fs.tmpDirExists = true) :
    runCmd (run_docling_command fs eff proc input fmts ocr) =
      [("docling".data), input]
        ++ fmts.flatMap (fun fmt =>
            [("--to".data), fmt, ("--output".data),
             expected_output_path (default_tmp_path fs)
               (py_stem (recover_original_name (path_name input))) fmt])
        ++ (if ocr then [] else [("--no-ocr".data)]) := by
  simp only [run_docling_command, get_default_output_dir, hfs, if_true]
  cases proc with
  | error e => simp [runCmd, build_cmd]
  | ok r =>
    by_cases h0 : r.returncode = 0 <;> simp [runCmd, build_cmd, h0]

/-- Witness for C4: two formats, OCR off, exit status 0. -/
theorem command_construction_exact_witness :
    fsPlain.tmpDirExists = true ∧
    runCmd (run_docling_command fsPlain id (Except.ok procOK) input0
        [("md".data), ("json".data)] false) =
      [("docling".data), input0]
        ++ ([("md".data), ("json".data)] : List Str).flatMap (fun fmt =>
            [("--to".data), fmt, ("--output".data),
             expected_output_path (default_tmp_path fsPlain)
               (py_stem (recover_original_name (path_name input0))) fmt])
        ++ (if false then [] else [("--no-ocr".data)]) :=
  ⟨rfl, command_construction_exact fsPlain id (Except.ok procOK) input0 _ false rfl⟩

/-- C7 (amended): per-path computation aside, output-directory resolution is
only conditionally pure: when the default output directory already exists
the filesystem is returned unchanged, and when it is missing and creatable
the resolution creates it, returning the filesystem changed exactly in the
existence of that directory. -/
theorem output_dir_resolution_side_effect (fs : FS) :
    (fs.tmpDirExists = true →
      get_default_output_dir fs = Except.ok (default_tmp_path fs, fs)) ∧
    (fs.tmpDirExists = false → fs.mkdirRaises = false →
      get_default_output_dir fs =
        Except.ok (default_tmp_path fs, { fs with tmpDirExists := true })) := by
  constructor
  · intro h
    simp [get_default_output_dir, h]
  · intro h1 h2
    simp [get_default_output_dir, h1, h2]

/-- Witness for C7 at a filesystem whose output directory exists. -/
theorem output_dir_resolution_side_effect_witness :
    fsPlain.tmpDirExists = true ∧
    get_default_output_dir fsPlain = Except.ok (default_tmp_path fsPlain, fsPlain) :=
  ⟨rfl, (output_dir_resolution_side_effect fsPlain).1 rfl⟩

/-- Counterexample to C7 as stated: resolving the output paths' directory
does not leave the filesystem unchanged — on a filesystem where the default
output directory is missing, the resolution step creates it. -/
theorem output_dir_resolution_changes_fs_counterexample :
    fsNoTmp.tmpDirExists = false ∧
    resolvedTmpExists (get_default_output_dir fsNoTmp) = true :=
  ⟨rfl, rfl⟩

/-- C8 (amended): when the output directory cannot be created, the
invocation raises and the conversion for that destination does not proceed;
but the failure is not caught and converted into a user-visible message —
the batch iteration ends in the propagated OSError, with the per-file
outcome list unchanged (no report) and only the staging file added. -/
theorem output_dir_failure_uncaught (fmts : List Str) (ocr : Bool) (n i : Nat)
    (f : UploadedFile) (w : World)
    (h1 : w.fs.tmpDirExists = false) (h2 : w.fs.mkdirRaises = true) :
    processFile fmts ocr n i f w =
      Except.error (mkdir_error_msg,
        { w with tempFiles := w.tempFiles ++ [temp_name i f.name] }) := by
  simp [processFile, run_docling_command, get_default_output_dir, h1, h2]

/-- Witness for C8 on a concrete read-only filesystem. -/
theorem output_dir_failure_uncaught_witness :
    w0raise.fs.tmpDirExists = false ∧ w0raise.fs.mkdirRaises = true ∧
    processFile [("md".data)] true 1 0 fileX w0raise =
      Except.error (mkdir_error_msg,
        { w0raise with tempFiles := w0raise.tempFiles ++ [temp_name 0 fileX.name] }) :=
  ⟨rfl, rfl, output_dir_failure_uncaught [("md".data)] true 1 0 fileX w0raise rfl rfl⟩

/-- Counterexample to C8 as stated: on a batch whose output directory cannot
be created, the run aborts by exception and the outcome list stays empty —
no specific, distinguishable failure message is reported to the user by the
application. -/
theorem no_report_on_output_dir_failure_counterexample :
    batchOk (main_run [("md".data)] true [fileX] w0raise) = false ∧
    resultsOf (main_run [("md".data)] true [fileX] w0raise) = [] :=
  ⟨rfl, rfl⟩

/-- C5 (amended): whenever the invocation returns — success or failure,
including launch exceptions, which the invoker catches — the staging file
created before the invocation is removed afterwards, leaving the set of
staging files unchanged; cleanup is not guaranteed on the exit path where an
exception escapes the invoker. -/
theorem staging_cleanup_on_return (fmts : List Str) (ocr : Bool) (n i : Nat)
    (f : UploadedFile) (w : World)
    (hnot : temp_name i f.name ∉ w.tempFiles)
    (hok : batchOk (processFile fmts ocr n i f w) = true) :
    tempsOf (processFile fmts ocr n i f w) = w.tempFiles := by
  cases hrun : run_docling_command w.fs f.eff f.proc (temp_name i f.name) fmts ocr with
  | error e =>
    simp [processFile, hrun, batchOk] at hok
  | ok r =>
    simp only [processFile, hrun, tempsOf]
    rw [List.erase_append_right _ hnot, List.erase_cons_head, List.append_nil]

/-- Witness for C5: a file whose conversion returns, over an initially clean
world — the staging-file set returns to empty. -/
theorem staging_cleanup_on_return_witness :
    temp_name 0 fileX.name ∉ w0ok.tempFiles ∧
    batchOk (processFile [("md".data)] true 1 0 fileX w0ok) = true ∧
    tempsOf (processFile [("md".data)] true 1 0 fileX w0ok) = w0ok.tempFiles :=
  ⟨by decide, rfl,
    staging_cleanup_on_return [("md".data)] true 1 0 fileX w0ok (by decide) rfl⟩

/-- Counterexample to C5 as stated: when the invocation raises (output
directory not creatable), the staging file is not removed — cleanup is not
guaranteed on every exit path. -/
theorem staging_leak_on_exception_counterexample :
    batchOk (main_run [("md".data)] true [fileX] w0raise) = false ∧
    tempsOf (main_run [("md".data)] true [fileX] w0raise) =
      [temp_name 0 ("doc.pdf".data)] :=
  ⟨rfl, rfl⟩

/-- When no expected path is an existing directory, the loop's output list
is exactly the expected-path list. -/
theorem reconciled_eq_expected_of_no_dirs (fs : FS) (d s : Str) (fmts : List Str)
    (h : ∀ fmt ∈ fmts, fs.isDir (expected_output_path d s fmt) = false) :
    reconciled_output_files fs d s fmts = expected_output_paths d s fmts := by
  induction fmts with
  | nil => rfl
  | cons f rest ih =>
    have hf := h f (List.mem_cons_self f rest)
    have hrest := ih (fun g hg => h g (List.mem_cons_of_mem f hg))
    simp only [reconciled_output_files, expected_output_paths] at hrest
    simp only [reconciled_output_files, expected_output_paths, List.flatMap_cons,
      List.map_cons, hf, Bool.false_eq_true, if_false, List.singleton_append]
    rw [hrest]

/-- C1 (amended): if an expected output path for format md is a directory at
command-construction time — before the external invocation, which is when
the source enumerates it — then on zero exit status exactly the directory's
files matching the md extension are returned as produced artifacts, and the
directory path itself is never among them. -/
theorem directory_reconciliation_preinvocation (fs : FS) (eff : FS → FS)
    (r : ProcResult) (input : Str) (ocr : Bool) (gl : List Str)
    (hfs : fs.tmpDirExists = true) (h0 : r.returncode = 0)
    (hdir : fs.isDir (expected_output_path (default_tmp_path fs)
        (py_stem (recover_original_name (path_name input))) ("md".data)) = true)
    (hglob : fs.globFiles (expected_output_path (default_tmp_path fs)
        (py_stem (recover_original_name (path_name input))) ("md".data))
        ("md".data) = gl)
    (hnot : expected_output_path (default_tmp_path fs)
        (py_stem (recover_original_name (path_name input))) ("md".data) ∉ gl) :
    runFiles (run_docling_command fs eff (Except.ok r) input [("md".data)] ocr) = gl ∧
    expected_output_path (default_tmp_path fs)
        (py_stem (recover_original_name (path_name input))) ("md".data) ∉
      runFiles (run_docling_command fs eff (Except.ok r) input [("md".data)] ocr) := by
  have he : runFiles (run_docling_command fs eff (Except.ok r) input
      [("md".data)] ocr) = gl := by
    simp only [run_docling_command, get_default_output_dir, hfs, if_true,
      reconciled_output_files, List.flatMap_cons, List.flatMap_nil, hdir,
      if_true, hglob, h0, runFiles, List.append_nil]
    cases gl <;> simp
  exact ⟨he, by rw [he]; exact hnot⟩

/-- Witness for C1: the md path of doc.pdf is a pre-existing directory
holding a.md and b.md; both are returned, the directory is not. -/
theorem directory_reconciliation_preinvocation_witness :
    fsDir.tmpDirExists = true ∧ procOK.returncode = 0 ∧
    fsDir.isDir (expected_output_path (default_tmp_path fsDir)
        (py_stem (recover_original_name (path_name input0))) ("md".data)) = true ∧
    (runFiles (run_docling_command fsDir id (Except.ok procOK) input0
          [("md".data)] true) =
        [("/tmp/doc.md/a.md".data), ("/tmp/doc.md/b.md".data)] ∧
      expected_output_path (default_tmp_path fsDir)
          (py_stem (recover_original_name (path_name input0))) ("md".data) ∉
        runFiles (run_docling_command fsDir id (Except.ok procOK) input0
          [("md".data)] true)) :=
  ⟨rfl, rfl, by decide,
    directory_reconciliation_preinvocation fsDir id procOK input0 true
      [("/tmp/doc.md/a.md".data), ("/tmp/doc.md/b.md".data)]
      rfl rfl (by decide) (by decide) (by decide)⟩

/-- Counterexample to C1 as stated: reconciliation is not performed after
the external invocation.  Here the tool itself creates the md path as a
directory holding a.md and b.md, so at post-invocation time the directory
exists and holds both files — yet the produced-artifact list is the
directory path itself, and a.md is not in it. -/
theorem reconciliation_not_postinvocation_counterexample :
    runFiles (run_docling_command fsPlain effDir (Except.ok procOK) input0
        [("md".data)] true) = [("/tmp/doc.md".data)] ∧
    (runFS (run_docling_command fsPlain effDir (Except.ok procOK) input0
        [("md".data)] true)).isDir ("/tmp/doc.md".data) = true ∧
    (runFS (run_docling_command fsPlain effDir (Except.ok procOK) input0
        [("md".data)] true)).globFiles ("/tmp/doc.md".data) ("md".data) =
      [("/tmp/doc.md/a.md".data), ("/tmp/doc.md/b.md".data)] ∧
    ("/tmp/doc.md/a.md".data) ∉ runFiles (run_docling_command fsPlain effDir
        (Except.ok procOK) input0 [("md".data)] true) ∧
    ("/tmp/doc.md".data) ∈ runFiles (run_docling_command fsPlain effDir
        (Except.ok procOK) input0 [("md".data)] true) := by
  refine ⟨by decide, by decide, by decide, by decide, by decide⟩

/-- C3 (amended): for a terminating external process, exit status zero
yields success with the captured stdout as message — possibly empty — and
the output list computed before the invocation (the expected paths, with
pre-existing directories replaced by their matching files); any nonzero
exit status yields failure with the captured stderr as message and an empty
produced-file list, regardless of stdout content. -/
theorem invoker_exit_status_classification (fs : FS) (eff : FS → FS)
    (r : ProcResult) (input : Str) (fmts : List Str) (ocr : Bool)
    (hfs : fs.tmpDirExists = true) :
    (r.returncode = 0 →
      runSuccess (run_docling_command fs eff (Except.ok r) input fmts ocr) = true ∧
      runMessage (run_docling_command fs eff (Except.ok r) input fmts ocr) = r.stdout ∧
      runFiles (run_docling_command fs eff (Except.ok r) input fmts ocr) =
        reconciled_output_files fs (default_tmp_path fs)
          (py_stem (recover_original_name (path_name input))) fmts) ∧
    (r.returncode ≠ 0 →
      runSuccess (run_docling_command fs eff (Except.ok r) input fmts ocr) = false ∧
      runMessage (run_docling_command fs eff (Except.ok r) input fmts ocr) = r.stderr ∧
      runFiles (run_docling_command fs eff (Except.ok r) input fmts ocr) = []) := by
  constructor
  · intro h0
    simp [run_docling_command, get_default_output_dir, hfs, h0,
      runSuccess, runMessage, runFiles]
  · intro h0
    simp [run_docling_command, get_default_output_dir, hfs, h0,
      runSuccess, runMessage, runFiles]

/-- Witness for C3: a zero-exit process on a plain filesystem. -/
theorem invoker_exit_status_classification_witness :
    fsPlain.tmpDirExists = true ∧
    ((procOK.returncode = 0 →
      runSuccess (run_docling_command fsPlain id (Except.ok procOK) input0
          [("md".data)] true) = true ∧
      runMessage (run_docling_command fsPlain id (Except.ok procOK) input0
          [("md".data)] true) = procOK.stdout ∧
      runFiles (run_docling_command fsPlain id (Except.ok procOK) input0
          [("md".data)] true) =
        reconciled_output_files fsPlain (default_tmp_path fsPlain)
          (py_stem (recover_original_name (path_name input0))) [("md".data)]) ∧
    (procOK.returncode ≠ 0 →
      runSuccess (run_docling_command fsPlain id (Except.ok procOK) input0
          [("md".data)] true) = false ∧
      runMessage (run_docling_command fsPlain id (Except.ok procOK) input0
          [("md".data)] true) = procOK.stderr ∧
      runFiles (run_docling_command fsPlain id (Except.ok procOK) input0
          [("md".data)] true) = [])) :=
  ⟨rfl, invoker_exit_status_classification fsPlain id procOK input0
      [("md".data)] true rfl⟩

/-- Counterexample to C3 as stated: a process exiting 0 with empty stdout
yields success with an empty message, and on a filesystem where the md path
is a pre-existing directory the zero-exit produced list differs from the
expected-path list. -/
theorem invoker_empty_message_counterexample :
    runSuccess (run_docling_command fsPlain id (Except.ok procEmptyOut) input0
        [("md".data)] true) = true ∧
    runMessage (run_docling_command fsPlain id (Except.ok procEmptyOut) input0
        [("md".data)] true) = [] ∧
    runFiles (run_docling_command fsDir id (Except.ok procOK) input0
        [("md".data)] true) ≠
      expected_output_paths (default_tmp_path fsDir)
        (py_stem (recover_original_name (path_name input0))) [("md".data)] := by
  refine ⟨by decide, by decide, by decide⟩

/-- C10 (amended): on exit status zero the produced-file list is exactly the
list computed before the process ran, from the pre-invocation filesystem
(expected paths, pre-existing directories replaced by their matching files);
it is independent of the tool's effect on the filesystem — no post-run
existence check — and whenever no expected path is a pre-existing directory
it is exactly the expected-path list, whether or not those files exist. -/
theorem success_list_precomputed_no_existence_check (fs : FS) (eff eff2 : FS → FS)
    (r : ProcResult) (input : Str) (fmts : List Str) (ocr : Bool)
    (hfs : fs.tmpDirExists = true) (h0 : r.returncode = 0) :
    runFiles (run_docling_command fs eff (Except.ok r) input fmts ocr) =
      reconciled_output_files fs (default_tmp_path fs)
        (py_stem (recover_original_name (path_name input))) fmts ∧
    runFiles (run_docling_command fs eff (Except.ok r) input fmts ocr) =
      runFiles (run_docling_command fs eff2 (Except.ok r) input fmts ocr) ∧
    ((∀ fmt ∈ fmts, fs.isDir (expected_output_path (default_tmp_path fs)
          (py_stem (recover_original_name (path_name input))) fmt) = false) →
      runFiles (run_docling_command fs eff (Except.ok r) input fmts ocr) =
        expected_output_paths (default_tmp_path fs)
          (py_stem (recover_original_name (path_name input))) fmts) := by
  refine ⟨?_, ?_, ?_⟩
  · simp [run_docling_command, get_default_output_dir, hfs, h0, runFiles]
  · simp [run_docling_command, get_default_output_dir, hfs, h0, runFiles]
  · intro hnd
    simp [run_docling_command, get_default_output_dir, hfs, h0, runFiles,
      reconciled_eq_expected_of_no_dirs fs (default_tmp_path fs)
        (py_stem (recover_original_name (path_name input))) fmts hnd]

/-- Witness for C10: zero exit over a filesystem with no directories at the
expected paths — and in particular no files there either — still reports
the expected paths. -/
theorem success_list_precomputed_witness :
    fsPlain.tmpDirExists = true ∧ procOK.returncode = 0 ∧
    runFiles (run_docling_command fsPlain id (Except.ok procOK) input0
        [("md".data)] true) =
      expected_output_paths (default_tmp_path fsPlain)
        (py_stem (recover_original_name (path_name input0))) [("md".data)] :=
  ⟨rfl, rfl,
    (success_list_precomputed_no_existence_check fsPlain id id procOK input0
        [("md".data)] true rfl rfl).2.2 (by decide)⟩

/-- Counterexample to C10 as stated: with the md path a pre-existing
directory, the zero-exit produced list is the directory's matching files,
not the expected-path list. -/
theorem success_list_not_expected_paths_counterexample :
    runFiles (run_docling_command fsDir id (Except.ok procOK) input0
        [("md".data)] true) =
      [("/tmp/doc.md/a.md".data), ("/tmp/doc.md/b.md".data)] ∧
    expected_output_paths (default_tmp_path fsDir)
        (py_stem (recover_original_name (path_name input0))) [("md".data)] =
      [("/tmp/doc.md".data)] ∧
    ([("/tmp/doc.md/a.md".data), ("/tmp/doc.md/b.md".data)] : List Str) ≠
      [("/tmp/doc.md".data)] := by
  refine ⟨by decide, by decide, by decide⟩

/-- A returning loop iteration appends exactly one progress value,
(i+1)/n. -/
theorem processFile_reports (fmts : List Str) (ocr : Bool) (n i : Nat)
    (f : UploadedFile) (w w' : World)
    (h : processFile fmts ocr n i f w = Except.ok w') :
    w'.progressReports = w.progressReports ++ [((i + 1 : Nat) : ℚ) / (n : ℚ)] := by
  cases hrun : run_docling_command w.fs f.eff f.proc (temp_name i f.name) fmts ocr with
  | error e => simp [processFile, hrun] at h
  | ok r =>
    simp only [processFile, hrun] at h
    cases h
    rfl

/-- A completing batch loop starting at index i appends one progress value
per file, (i+j+1)/n for the j-th of the remaining files, in order. -/
theorem processBatch_reports (fmts : List Str) (ocr : Bool) (n : Nat) :
    ∀ (files : List UploadedFile) (i : Nat) (w w' : World),
      processBatch fmts ocr n i files w = Except.ok w' →
      w'.progressReports = w.progressReports ++
        (List.range files.length).map (fun j => ((i + j + 1 : Nat) : ℚ) / (n : ℚ)) := by
  intro files
  induction files with
  | nil =>
    intro i w w' h
    simp only [processBatch] at h
    cases h
    simp
  | cons f rest ih =>
    intro i w w' h
    cases hpf : processFile fmts ocr n i f w with
    | error ew => simp [processBatch, hpf] at h
    | ok w1 =>
      simp only [processBatch, hpf] at h
      have h1 := processFile_reports fmts ocr n i f w w1 hpf
      have h2 := ih (i + 1) w1 w' h
      rw [h2, h1, List.append_assoc, List.length_cons]
      congr 1
      rw [List.range_succ_eq_map, List.map_cons, List.map_map, List.singleton_append]
      refine List.cons_eq_cons.mpr ⟨by norm_num, ?_⟩
      apply List.map_congr_left
      intro j hj
      simp only [Function.comp_apply]
      push_cast
      ring

/-- The progress sequence (j+1)/n for j below n, followed by the final 1.0,
is monotonically non-decreasing. -/
theorem pairwise_le_progress (n : Nat) :
    List.Pairwise (fun a b => a ≤ b)
      ((List.range n).map (fun j => ((j + 1 : Nat) : ℚ) / (n : ℚ)) ++ [(1 : ℚ)]) := by
  rw [List.pairwise_append]
  refine ⟨?_, by simp, ?_⟩
  · refine List.Pairwise.map _ ?_ (List.pairwise_lt_range n)
    intro a b hab
    rcases Nat.eq_zero_or_pos n with h | h
    · simp [h]
    · have hn : (0 : ℚ) < n := by exact_mod_cast h
      rw [div_le_div_iff_of_pos_right hn]
      exact_mod_cast Nat.succ_le_succ (le_of_lt hab)
  · intro x hx y hy
    simp only [List.mem_singleton] at hy
    subst hy
    simp only [List.mem_map, List.mem_range] at hx
    obtain ⟨j, hj, rfl⟩ := hx
    rcases Nat.eq_zero_or_pos n with h | h
    · omega
    · have hn : (0 : ℚ) < n := by exact_mod_cast h
      rw [div_le_one hn]
      exact_mod_cast Nat.succ_le_of_lt hj

/-- C9: for a non-empty batch with at least one requested format whose
processing completes (no escaping exception), the reported progress values
are exactly (index+1)/batchSize per file in order, followed by the final
1.0; the sequence is monotonically non-decreasing and its last value is
exactly 1 — independently of per-file success or failure. -/
theorem batch_progress_monotone_reaches_one (fmts : List Str) (ocr : Bool)
    (files : List UploadedFile) (w0 : World)
    (h1 : files.isEmpty = false) (h2 : fmts.isEmpty = false)
    (h3 : w0.progressReports = [])
    (h4 : batchOk (main_run fmts ocr files w0) = true) :
    reportsOf (main_run fmts ocr files w0) =
      (List.range files.length).map
        (fun j => ((j + 1 : Nat) : ℚ) / (files.length : ℚ)) ++ [1] ∧
    List.Pairwise (fun a b => a ≤ b) (reportsOf (main_run fmts ocr files w0)) ∧
    (reportsOf (main_run fmts ocr files w0)).getLast? = some 1 := by
  have hrep : reportsOf (main_run fmts ocr files w0) =
      (List.range files.length).map
        (fun j => ((j + 1 : Nat) : ℚ) / (files.length : ℚ)) ++ [1] := by
    cases hb : processBatch fmts ocr files.length 0 files w0 with
    | error ew => simp [main_run, h1, h2, hb, batchOk] at h4
    | ok w =>
      have hw := processBatch_reports fmts ocr files.length files 0 w0 w hb
      rw [h3, List.nil_append] at hw
      simp only [main_run, h1, h2, Bool.false_eq_true, if_false, hb, reportsOf]
      rw [hw]
      congr 1
      apply List.map_congr_left
      intro j _
      norm_num
  refine ⟨hrep, ?_, ?_⟩
  · rw [hrep]
    exact pairwise_le_progress files.length
  · rw [hrep]
    exact List.getLast?_concat _

/-- Witness for C9: a one-file batch whose single conversion fails (exit 1)
still reports progress 1/1 and then the final 1. -/
theorem batch_progress_monotone_reaches_one_witness :
    ([fileFail] : List UploadedFile).isEmpty = false ∧
    ([("md".data)] : List Str).isEmpty = false ∧
    w0ok.progressReports = [] ∧
    batchOk (main_run [("md".data)] true [fileFail] w0ok) = true ∧
    (reportsOf (main_run [("md".data)] true [fileFail] w0ok) =
        (List.range ([fileFail] : List UploadedFile).length).map
          (fun j => ((j + 1 : Nat) : ℚ) /
            ((([fileFail] : List UploadedFile).length : Nat) : ℚ)) ++ [1] ∧
      List.Pairwise (fun a b => a ≤ b)
        (reportsOf (main_run [("md".data)] true [fileFail] w0ok)) ∧
      (reportsOf (main_run [("md".data)] true [fileFail] w0ok)).getLast? = some 1) :=
  ⟨rfl, rfl, rfl, rfl,
    batch_progress_monotone_reaches_one [("md".data)] true [fileFail] w0ok
      rfl rfl rfl rfl⟩
